import Mathlib

/-!
Verification of the level-progression and game logic of the
`kids-learning-playground` repository (`src/app/page.tsx`).

The page is a single React component.  We embed it shallowly:

* the React `useState` fields become the fields of `AppState`;
* every event handler (`startGame`, `goToMenu`, `handleCardClick`,
  `handleFindPairSelect`, `handlePatternAnswer`, `handleDifferentClick`,
  `handleSequenceClick`, `handleSimonClick`) becomes a function
  `AppState → AppState`;
* every `setTimeout` callback becomes a `Pending` value carrying exactly the
  data the JavaScript closure captures (including the `gameState` snapshot
  captured by the `autoAdvanceLevel` `useCallback`), stored in a pending list;
  a timer firing is the `Event.fireAt` transition.  The source clears only
  `showSequenceTimeoutRef` on `goToMenu`; all other pending timers survive
  screen changes, and the model reproduces this.
* `Math.random`-driven shuffles and the Simon sequence are supplied as
  explicit `Rng` parameters of the events that trigger an `init`.
* the Simon "show the sequence" playback chain (an anonymous 500 ms timeout
  followed by `showSimonSequence`'s ref-held timers) only toggles
  `activeSimonButton` visuals and finally sets `isShowingSequence := false`;
  it is collapsed into the single pending `simonShowDone`.

Note on string literals: the source file stores its emoji double-encoded
(UTF-8 bytes re-read as MacRoman, so `🔴` appears in the file as U+F8FF
followed by mojibake characters).  Double encoding is injective, so the
tables below use the intended emoji as opaque tokens; every equality and
distinctness fact is unchanged by this renaming.
-/

inductive GameType
  | memory
  | findPair
  | pattern
  | different
  | sequence
  | simon
deriving DecidableEq, Repr

/-- `MAX_LEVELS` from the source (lines 76-83). -/
def MAX_LEVELS : GameType → Nat
  | .memory => 5
  | .findPair => 3
  | .pattern => 5
  | .different => 5
  | .sequence => 4
  | .simon => 10

inductive Screen
  | menu
  | game
deriving DecidableEq, Repr

/-- The `GameState` interface (source lines 25-31). -/
structure GameState where
  type : Option GameType
  level : Nat
  maxLevel : Nat
  score : Nat
  attempts : Nat
deriving DecidableEq, Repr

/-- One memory card (source line 98). -/
structure MemCard where
  id : Nat
  emoji : String
  flipped : Bool
  matched : Bool
deriving DecidableEq, Repr

/-- `gameEmojis.memory` (source line 70). -/
def memoryEmojis : List String :=
  ["🐶", "🐱", "🐰", "🦊", "🐼", "🦁", "🐯", "🐨",
   "🐸", "🐵", "🐔", "🐧", "🦄", "🐬", "🦋", "🌈"]

/-- `allPairs` of the find-pair game (image, word), duplicated verbatim at
source lines 239-250, 266-277 and 1299-1310. -/
def allPairs : List (String × String) :=
  [("🐶", "Cachorro"), ("🐱", "Gato"), ("🐰", "Coelho"), ("🦊", "Raposa"),
   ("🦁", "Leão"), ("🐯", "Tigre"), ("🐼", "Panda"), ("🐨", "Coala"),
   ("🐸", "Sapo"), ("🦄", "Unicórnio")]

structure PatternChallenge where
  sequence : List String
  answer : String
  options : List String
deriving DecidableEq, Repr

/-- `allPatterns` of the pattern game, duplicated verbatim at source lines
308-319, 331-342 and 1320-1331. -/
def allPatterns : List PatternChallenge :=
  [⟨["🔴", "🔵", "🔴", "🔵", "🔴", "?"], "🔵", ["🔵", "🟡", "🟢"]⟩,
   ⟨["⭐", "🌙", "⭐", "🌙", "⭐", "?"], "🌙", ["🌙", "☀️", "💫"]⟩,
   ⟨["🍎", "🍎", "🍊", "🍎", "🍎", "?"], "🍊", ["🍊", "🍋", "🍇"]⟩,
   ⟨["🔺", "🔻", "🔺", "🔻", "🔺", "?"], "🔻", ["🔻", "🔶", "⭐"]⟩,
   ⟨["1", "2", "3", "4", "5", "?"], "6", ["6", "7", "8"]⟩,
   ⟨["🟢", "🟢", "🔵", "🔵", "🟢", "🟢", "?"], "🔵", ["🔵", "🟡", "🟢"]⟩,
   ⟨["A", "B", "C", "D", "E", "?"], "F", ["F", "G", "H"]⟩,
   ⟨["🌸", "🌸", "🌺", "🌸", "🌸", "?"], "🌺", ["🌺", "🌹", "🌷"]⟩,
   ⟨["2", "4", "6", "8", "10", "?"], "12", ["12", "14", "16"]⟩,
   ⟨["⬆️", "⬇️", "⬆️", "⬇️", "⬆️", "?"], "⬇️", ["⬇️", "➡️", "⬅️"]⟩]

structure DifferentChallenge where
  items : List String
  different : Nat
deriving DecidableEq, Repr

/-- `allLevels` of the find-different game, duplicated verbatim at source
lines 368-379, 388-399 and 1345-1356. -/
def allDifferentLevels : List DifferentChallenge :=
  [⟨["🐶", "🐶", "🐶", "🐱", "🐶"], 3⟩,
   ⟨["🔴", "🔴", "🔵", "🔴", "🔴"], 2⟩,
   ⟨["⭐", "⭐", "⭐", "⭐", "💫"], 4⟩,
   ⟨["🍎", "🍎", "🍊", "🍎", "🍎"], 2⟩,
   ⟨["🔺", "🔺", "🔺", "🔶", "🔺"], 3⟩,
   ⟨["🐶", "🐶", "🐶", "🐶", "🐱", "🐶"], 4⟩,
   ⟨["🔴", "🔴", "🔵", "🔴", "🔴", "🔴"], 2⟩,
   ⟨["⭐", "⭐", "⭐", "⭐", "⭐", "💫"], 5⟩,
   ⟨["🍎", "🍎", "🍊", "🍎", "🍎", "🍎"], 2⟩,
   ⟨["🔺", "🔺", "🔺", "🔺", "🔶", "🔺"], 4⟩]

structure SeqChallenge where
  items : List String
  correctOrder : List String
deriving DecidableEq, Repr

/-- `allSequences` of the sequence game, duplicated verbatim at source lines
425-430, 440-445 and 1370-1375. -/
def allSequences : List SeqChallenge :=
  [⟨["🌱", "🌿", "🪴", "🌳"], ["🌱", "🌿", "🪴", "🌳"]⟩,
   ⟨["🥚", "🐣", "🐥", "🐔"], ["🥚", "🐣", "🐥", "🐔"]⟩,
   ⟨["1", "2", "3", "4"], ["1", "2", "3", "4"]⟩,
   ⟨["☁️", "🌧️", "🌈", "☀️"], ["☁️", "🌧️", "🌈", "☀️"]⟩]

/-! ## Content-lookup helper functions (source lines 1298-1386)

Each JavaScript helper `console.error`s on a bad argument; the embedding
returns the logged-an-anomaly flag as the `Bool` component of the result.
JavaScript's `!level` test is subsumed by `level < 1` on integer inputs.
-/

/-- `getFindPairsForLevel` (source lines 1298-1317). -/
def getFindPairsForLevel (level : Int) : Bool × List (String × String) :=
  if level < 1 ∨ 3 < level then
    (true, allPairs.take 3)
  else
    let pairsCount := ([3, 5, 7].getD (level - 1).toNat 0)
    (false, allPairs.take pairsCount)

/-- `getPatternsForLevel` (source lines 1319-1342). -/
def getPatternsForLevel (level index : Int) : Bool × PatternChallenge :=
  if level < 1 ∨ 5 < level then
    (true, allPatterns.getD 0 ⟨[], "", []⟩)
  else
    let patternsForLevel := allPatterns.take level.toNat
    if index < 0 ∨ (patternsForLevel.length : Int) ≤ index then
      (true, patternsForLevel.getD 0 ⟨[], "", []⟩)
    else
      (false, patternsForLevel.getD index.toNat ⟨[], "", []⟩)

/-- `getDifferentForLevel` (source lines 1344-1367). -/
def getDifferentForLevel (level index : Int) : Bool × DifferentChallenge :=
  if level < 1 ∨ 5 < level then
    (true, allDifferentLevels.getD 0 ⟨[], 0⟩)
  else
    let levelsForGame := allDifferentLevels.take level.toNat
    if index < 0 ∨ (levelsForGame.length : Int) ≤ index then
      (true, levelsForGame.getD 0 ⟨[], 0⟩)
    else
      (false, levelsForGame.getD index.toNat ⟨[], 0⟩)

/-- `getSequenceForLevel` (source lines 1369-1386).  The `index` parameter is
accepted but never read by the source function. -/
def getSequenceForLevel (level index : Int) : Bool × SeqChallenge :=
  if level < 1 ∨ 4 < level then
    (true, allSequences.getD 0 ⟨[], []⟩)
  else
    match allSequences.get? (level - 1).toNat with
    | some s => (false, s)
    | none => (true, allSequences.getD 0 ⟨[], []⟩)

/-! ## Application state, captured closures, and pending timers -/

/-- The `gameState` snapshot captured by the `autoAdvanceLevel` `useCallback`
(dependency list `[gameState.type, gameState.level, gameState.maxLevel]`,
source line 167). -/
structure Capture where
  type : Option GameType
  level : Nat
  maxLevel : Nat
deriving DecidableEq, Repr

/-- One scheduled `setTimeout` callback, carrying exactly the data the
JavaScript closure captures, plus the scheduled delay in milliseconds. -/
inductive Pending
  /-- The match/no-match resolution of the memory game (source lines
  208-232): captures `newCards`, `first`, `second` and the
  `autoAdvanceLevel` snapshot.  Delay 500 ms on a match, 1000 ms otherwise. -/
  | memResolve (cards : List MemCard) (first second : Nat) (cap : Capture)
      (delayMs : Nat)
  /-- The pattern game's post-answer timeout (source lines 355-363):
  captures the challenge count for the level and the current index. -/
  | patternTick (len idx : Nat) (cap : Capture) (delayMs : Nat)
  /-- The find-different game's post-answer timeout (source lines 412-420). -/
  | differentTick (len idx : Nat) (cap : Capture) (delayMs : Nat)
  /-- The 1500 ms auto-advance timeout scheduled by `autoAdvanceLevel`
  (source lines 136-161). -/
  | advance (cap : Capture) (delayMs : Nat)
  /-- The 1000 ms timeout before `autoAdvanceLevel` after a completed Simon
  sequence (source lines 543-545). -/
  | simonAdvance (cap : Capture) (delayMs : Nat)
  /-- The collapsed Simon sequence-playback chain; firing it means playback
  finished, which sets `isShowingSequence := false` (source line 506). -/
  | simonShowDone
deriving DecidableEq, Repr

/-- `selectedPair` (source line 102). -/
structure SelPair where
  image : Option String
  word : Option String
deriving DecidableEq, Repr

/-- All `useState` fields of the component plus the pending-timer list.
`patternFeedback`/`differentFeedback`: `some true` models `'correct'`,
`some false` models `'wrong'`, `none` models `null`. -/
structure AppState where
  currentScreen : Screen
  gameState : GameState
  memoryCards : List MemCard
  selectedCards : List Nat
  selectedPair : SelPair
  pairedItems : Finset String
  currentFindPairLevel : Nat
  currentPatternIndex : Nat
  patternFeedback : Option Bool
  currentDifferentIndex : Nat
  differentFeedback : Option Bool
  currentSequenceIndex : Nat
  sequenceItems : List String
  simonSequence : List Nat
  playerSequence : List Nat
  isShowingSequence : Bool
  showLevelCompleteModal : Bool
  showWinModal : Bool
  pendings : List Pending

/-- The initial `useState` values (source lines 94-127). -/
def initialState : AppState :=
  { currentScreen := .menu
    gameState := { type := none, level := 1, maxLevel := 1, score := 0, attempts := 0 }
    memoryCards := []
    selectedCards := []
    selectedPair := ⟨none, none⟩
    pairedItems := ∅
    currentFindPairLevel := 1
    currentPatternIndex := 0
    patternFeedback := none
    currentDifferentIndex := 0
    differentFeedback := none
    currentSequenceIndex := 0
    sequenceItems := []
    simonSequence := []
    playerSequence := []
    isShowingSequence := false
    showLevelCompleteModal := false
    showWinModal := false
    pendings := [] }

/-- The `gameState` snapshot seen by the handler's render closure. -/
def captureOf (s : AppState) : Capture :=
  ⟨s.gameState.type, s.gameState.level, s.gameState.maxLevel⟩

/-- Outcomes of `Math.random`: the shuffled-order permutations (as index
lists into the unshuffled array) used by the memory and sequence inits, and
the random color choices of the Simon init.  Supplied explicitly by every
event that can trigger an `init`. -/
structure Rng where
  memShuffle : List Nat
  seqShuffle : List Nat
  simonSeq : List Nat
deriving Repr

/-- Reorder `xs` by a list of indices; `List.range xs.length` is the
identity shuffle (achievable by `.sort(() => Math.random() - 0.5)` since the
sort is stable and the comparator may consistently return a negative value). -/
def applyPerm (p : List Nat) (xs : List α) : List α :=
  p.filterMap xs.get?

/-! ## Per-game `init` functions -/

/-- `initMemoryGameAtLevel` (source lines 170-187).  `gridSizeMap[level-1]`
is `undefined` for `level > 5`, making `emojis` empty via `slice(0, NaN)`. -/
def initMemoryGameAtLevel (level : Nat) (r : Rng) (s : AppState) : AppState :=
  let emojis :=
    match [4, 6, 12, 16, 20].get? (level - 1) with
    | some g => memoryEmojis.take (g / 2)
    | none => []
  let base := (emojis ++ emojis).enum.map fun ie =>
    ({ id := ie.1, emoji := ie.2, flipped := false, matched := false } : MemCard)
  { s with
    memoryCards := applyPerm r.memShuffle base
    selectedCards := []
    gameState := { s.gameState with level := level, maxLevel := MAX_LEVELS .memory } }

/-- `initFindPairGameAtLevel` (source lines 238-260).  The local
`pairsCount`/`levelPairs` are computed but unused by the source function. -/
def initFindPairGameAtLevel (level : Nat) (s : AppState) : AppState :=
  { s with
    selectedPair := ⟨none, none⟩
    pairedItems := ∅
    currentFindPairLevel := level
    gameState := { s.gameState with level := level, maxLevel := MAX_LEVELS .findPair } }

/-- `initPatternGameAtLevel` (source lines 307-327). -/
def initPatternGameAtLevel (level : Nat) (s : AppState) : AppState :=
  { s with
    currentPatternIndex := 0
    patternFeedback := none
    gameState := { s.gameState with level := level, maxLevel := MAX_LEVELS .pattern } }

/-- `initDifferentGameAtLevel` (source lines 367-384). -/
def initDifferentGameAtLevel (level : Nat) (s : AppState) : AppState :=
  { s with
    currentDifferentIndex := 0
    differentFeedback := none
    gameState := { s.gameState with level := level, maxLevel := MAX_LEVELS .different } }

/-- `initSequenceGameAtLevel` (source lines 424-436).  Every call site
passes a level in `[1, 4]`; on an out-of-range level the JavaScript spread
of `undefined.items` would throw, modelled here by leaving the items
unchanged (the branch is unreachable from the claims' traces). -/
def initSequenceGameAtLevel (level : Nat) (r : Rng) (s : AppState) : AppState :=
  let s :=
    match allSequences.get? (level - 1) with
    | some q =>
        { s with
          sequenceItems := applyPerm r.seqShuffle q.items
          currentSequenceIndex := 0 }
    | none => s
  { s with gameState := { s.gameState with level := level, maxLevel := MAX_LEVELS .sequence } }

/-- `initSimonGameAtLevel` (source lines 474-487): a fresh random sequence
of `level` colors in `0..3`, playback starts (collapsed to the pending
`simonShowDone`). -/
def initSimonGameAtLevel (level : Nat) (r : Rng) (s : AppState) : AppState :=
  let newSequence := (List.range level).map fun i => (r.simonSeq.getD i 0) % 4
  { s with
    simonSequence := newSequence
    playerSequence := []
    isShowingSequence := true
    pendings := s.pendings ++ [.simonShowDone]
    gameState := { s.gameState with level := level, maxLevel := MAX_LEVELS .simon } }

/-- The per-type `init(level)` dispatch (the `switch` at source lines
141-160 and 558-577). -/
def initAtLevel : GameType → Nat → Rng → AppState → AppState
  | .memory, l, r, s => initMemoryGameAtLevel l r s
  | .findPair, l, _, s => initFindPairGameAtLevel l s
  | .pattern, l, _, s => initPatternGameAtLevel l s
  | .different, l, _, s => initDifferentGameAtLevel l s
  | .sequence, l, r, s => initSequenceGameAtLevel l r s
  | .simon, l, r, s => initSimonGameAtLevel l r s

/-! ## Level-progression coordinator -/

/-- The fixed delay of the auto-advance timer (source line 161). -/
def ADVANCE_DELAY_MS : Nat := 1500

/-- `autoAdvanceLevel` (source lines 130-167), parameterized by the
`gameState` snapshot `c` its `useCallback` closure captured: if
`c.level < c.maxLevel` it shows the level-complete modal and schedules the
1500 ms advance timeout; otherwise it shows the win modal. -/
def autoAdvanceLevel (c : Capture) (s : AppState) : AppState :=
  if c.level < c.maxLevel then
    { s with
      showLevelCompleteModal := true
      pendings := s.pendings ++ [.advance c ADVANCE_DELAY_MS] }
  else
    { s with showWinModal := true }

/-! ## Event handlers -/

/-- `handleCardClick` (source lines 190-235).  The match/no-match
resolution runs in a `setTimeout` (500 ms on a match, 1000 ms otherwise)
and becomes a pending `memResolve`; a click on an out-of-range index never
happens (the grid only renders valid indices) and is modelled as a no-op. -/
def handleCardClick (i : Nat) (s : AppState) : AppState :=
  match s.memoryCards.get? i with
  | none => s
  | some card =>
    if s.selectedCards.length = 2 ∨ card.matched ∨ card.flipped then s
    else
      let newCards := s.memoryCards.set i { card with flipped := true }
      let newSelected := s.selectedCards ++ [i]
      let s' := { s with memoryCards := newCards, selectedCards := newSelected }
      match newSelected with
      | [a, b] =>
        let delay :=
          if (newCards.getD a ⟨0, "", false, false⟩).emoji
              = (newCards.getD b ⟨0, "", false, false⟩).emoji then 500 else 1000
        { s' with
          gameState := { s'.gameState with attempts := s'.gameState.attempts + 1 }
          pendings := s'.pendings ++ [.memResolve newCards a b (captureOf s) delay] }
      | _ => s'

/-- `handleFindPairSelect` (source lines 263-304).  `[3,5,7][level-1]` is
`undefined` when `currentFindPairLevel` is outside `[1,3]`; then
`slice(0, undefined)` yields the whole array and the `size === NaN - 1`
win check is `false`, modelled by the `none` cases of `pairsCount?`.
The win check reads `pairedItems` from the render closure, i.e. the set
BEFORE the new pair is inserted.
`pairsCount = [3,5,7][currentFindPairLevel - 1]`: -/
def findPairsCount? (s : AppState) : Option Nat :=
  ([3, 5, 7] : List Nat).get? (s.currentFindPairLevel - 1)

/-- The level's slice of `allPairs`; `slice(0, undefined)` is the whole
array. -/
def findPairLevelPairs (s : AppState) : List (String × String) :=
  match findPairsCount? s with
  | some n => allPairs.take n
  | none => allPairs

def handleFindPairSelect (isImage : Bool) (value : String) (s : AppState) : AppState :=
  let pairsCount? := findPairsCount? s
  let levelPairs := findPairLevelPairs s
  let newSelected : SelPair :=
    if isImage then { s.selectedPair with image := some value }
    else { s.selectedPair with word := some value }
  let s' := { s with selectedPair := newSelected }
  match newSelected.image, newSelected.word with
  | some img, some w =>
    let s'' :=
      match levelPairs.find? (fun p => p.1 == img && p.2 == w) with
      | some p =>
        if p.1 ∉ s.pairedItems then
          let s2 := { s' with
            pairedItems := insert p.1 s.pairedItems
            gameState := { s'.gameState with score := s'.gameState.score + 10 } }
          if (match pairsCount? with
              | some n => s.pairedItems.card == n - 1
              | none => false) then
            autoAdvanceLevel (captureOf s) s2
          else s2
        else s'
      | none => s'
    { s'' with selectedPair := ⟨none, none⟩ }
  | _, _ => s'

/-- `handlePatternAnswer` (source lines 330-364).  The post-answer timeout
becomes a pending `patternTick` capturing the level's challenge count and
the current index.  An out-of-range `currentPatternIndex` (which would make
the JavaScript dereference `undefined.answer`) never occurs and is a no-op. -/
def handlePatternAnswer (a : String) (s : AppState) : AppState :=
  let patternsForLevel := allPatterns.take s.gameState.level
  match patternsForLevel.get? s.currentPatternIndex with
  | none => s
  | some cp =>
    let correct := a == cp.answer
    let s' := { s with patternFeedback := some correct }
    let s' :=
      if correct then
        { s' with gameState := { s'.gameState with score := s'.gameState.score + 10 } }
      else s'
    { s' with
      pendings := s'.pendings ++
        [.patternTick patternsForLevel.length s.currentPatternIndex (captureOf s) 1000] }

/-- `handleDifferentClick` (source lines 387-421), structurally identical
to the pattern handler. -/
def handleDifferentClick (i : Nat) (s : AppState) : AppState :=
  let levelsForGame := allDifferentLevels.take s.gameState.level
  match levelsForGame.get? s.currentDifferentIndex with
  | none => s
  | some cl =>
    let correct := i == cl.different
    let s' := { s with differentFeedback := some correct }
    let s' :=
      if correct then
        { s' with gameState := { s'.gameState with score := s'.gameState.score + 10 } }
      else s'
    { s' with
      pendings := s'.pendings ++
        [.differentTick levelsForGame.length s.currentDifferentIndex (captureOf s) 1000] }

/-- `handleSequenceClick` (source lines 439-471).  `correctIndex` is the
number of REMAINING items that occur in `correctOrder` (the
`sequenceItems.filter(...).length` of line 448), and
`correctOrder[correctIndex]` may be `undefined` (`none` here), in which
case the strict comparison with the clicked item is false. -/
def handleSequenceClick (item : String) (r : Rng) (s : AppState) : AppState :=
  match allSequences.get? s.currentSequenceIndex with
  | none => s
  | some cs =>
    let correctIndex := (s.sequenceItems.filter fun x => cs.correctOrder.contains x).length
    let correctItem? := cs.correctOrder.get? correctIndex
    if some item = correctItem? then
      let newItems := s.sequenceItems.filter fun x => x != item
      let s' := { s with
        gameState := { s.gameState with score := s.gameState.score + 10 }
        sequenceItems := newItems }
      if newItems.length = 0 then
        if s.currentSequenceIndex < allSequences.length - 1 then
          match allSequences.get? (s.currentSequenceIndex + 1) with
          | some nxt =>
            { s' with
              sequenceItems := applyPerm r.seqShuffle nxt.items
              currentSequenceIndex := s'.currentSequenceIndex + 1 }
          | none => s'
        else autoAdvanceLevel (captureOf s) s'
      else s'
    else s

/-- `handleSimonClick` (source lines 516-547).  A wrong press replays the
sequence (collapsed to the pending `simonShowDone`); completing the whole
sequence awards `10 * level` and schedules `autoAdvanceLevel` after
1000 ms.  `simonSequence[i]` for `i` beyond the sequence is `undefined`
(`none`), which compares unequal to any pressed button. -/
def handleSimonClick (b : Nat) (s : AppState) : AppState :=
  if s.isShowingSequence then s
  else
    let newPlayer := s.playerSequence ++ [b]
    let s' := { s with playerSequence := newPlayer }
    let idx := newPlayer.length - 1
    if newPlayer.get? idx ≠ s.simonSequence.get? idx then
      { s' with
        isShowingSequence := true
        playerSequence := []
        pendings := s'.pendings ++ [.simonShowDone] }
    else if newPlayer.length = s.simonSequence.length then
      { s' with
        gameState := { s'.gameState with
          score := s'.gameState.score + 10 * s.gameState.level }
        pendings := s'.pendings ++ [.simonAdvance (captureOf s) 1000] }
    else s'

/-! ## Screen controller -/

/-- The single `setGameState` object assignment at the top of `startGame`
(source line 556): the only state the atomic update itself establishes. -/
def startGameSnapshot (t : GameType) : GameState :=
  { type := some t, level := 1, maxLevel := 1, score := 0, attempts := 0 }

/-- `startGame` (source lines 550-580): clear the modals, atomically
install `startGameSnapshot`, run the variant's `init(1)`, then switch the
screen to the game view.  Pending timers are NOT cleared. -/
def startGameCore (t : GameType) (r : Rng) (s : AppState) : AppState :=
  let s := { s with
    showWinModal := false
    showLevelCompleteModal := false
    gameState := startGameSnapshot t }
  let s := initAtLevel t 1 r s
  { s with currentScreen := .game }

/-- `goToMenu` (source lines 583-595): reset the session and cancel the
Simon playback chain (`showSequenceTimeoutRef`); every other pending timer
survives, exactly as in the source. -/
def goToMenu (s : AppState) : AppState :=
  { s with
    currentScreen := .menu
    gameState := { type := none, level := 1, maxLevel := 1, score := 0, attempts := 0 }
    showWinModal := false
    showLevelCompleteModal := false
    pendings := s.pendings.filter fun p => p != .simonShowDone }

/-! ## Timer execution and the event-step function -/

/-- Run one fired `setTimeout` callback. -/
def runPending : Pending → Rng → AppState → AppState
  | .memResolve cards a b cap _, _, s =>
    match cards.get? a, cards.get? b with
    | some ca, some cb =>
      if ca.emoji = cb.emoji then
        let updated := (cards.set a { ca with matched := true }).set b { cb with matched := true }
        let s' := { s with
          memoryCards := updated
          selectedCards := []
          gameState := { s.gameState with score := s.gameState.score + 10 } }
        if updated.all (·.matched) then autoAdvanceLevel cap s' else s'
      else
        let updated := (cards.set a { ca with flipped := false }).set b { cb with flipped := false }
        { s with memoryCards := updated, selectedCards := [] }
    | _, _ => s
  | .patternTick len idx cap _, _, s =>
    if idx < len - 1 then
      { s with currentPatternIndex := s.currentPatternIndex + 1, patternFeedback := none }
    else autoAdvanceLevel cap s
  | .differentTick len idx cap _, _, s =>
    if idx < len - 1 then
      { s with currentDifferentIndex := s.currentDifferentIndex + 1, differentFeedback := none }
    else autoAdvanceLevel cap s
  | .advance cap _, r, s =>
    let s' := { s with
      showLevelCompleteModal := false
      gameState := { s.gameState with level := s.gameState.level + 1 } }
    match cap.type with
    | some t => initAtLevel t (cap.level + 1) r s'
    | none => s'
  | .simonAdvance cap _, _, s => autoAdvanceLevel cap s
  | .simonShowDone, _, s => { s with isShowingSequence := false }

/-- A user interaction or a timer firing. -/
inductive Event
  | startGameEv (t : GameType) (r : Rng)
  | goToMenuEv
  | restartEv (r : Rng)
  | winDismiss
  | memCardClick (i : Nat)
  | pairSelect (isImage : Bool) (value : String)
  | patternAnswer (a : String)
  | differentClick (i : Nat)
  | seqClick (item : String) (r : Rng)
  | simonClick (b : Nat)
  | fireAt (i : Nat) (r : Rng)

/-- A game-input event can only be delivered while the game screen is shown
and no modal overlay (`fixed inset-0 ... z-50`) covers it. -/
def inputAllowed (s : AppState) : Prop :=
  s.currentScreen = .game ∧ s.showLevelCompleteModal = false ∧ s.showWinModal = false

instance (s : AppState) : Decidable (inputAllowed s) := by
  unfold inputAllowed; infer_instance

/-- One observable transition: the synchronous execution of a single event
handler or timer callback, guarded by what the rendered UI makes
clickable (`disabled` attributes, modal overlays, which screen is shown). -/
def step : Event → AppState → AppState
  | .startGameEv t r, s => if s.currentScreen = .menu then startGameCore t r s else s
  | .goToMenuEv, s =>
    if s.currentScreen = .game ∧ s.showLevelCompleteModal = false then goToMenu s else s
  | .restartEv r, s =>
    if s.currentScreen = .game ∧ s.showLevelCompleteModal = false then
      match s.gameState.type with
      | some t => startGameCore t r s
      | none => s
    else s
  | .winDismiss, s => if s.showWinModal then { s with showWinModal := false } else s
  | .memCardClick i, s =>
    if inputAllowed s ∧ s.gameState.type = some .memory then handleCardClick i s else s
  | .pairSelect isImage v, s =>
    if inputAllowed s ∧ s.gameState.type = some .findPair then
      handleFindPairSelect isImage v s
    else s
  | .patternAnswer a, s =>
    if inputAllowed s ∧ s.gameState.type = some .pattern ∧ s.patternFeedback = none then
      handlePatternAnswer a s
    else s
  | .differentClick i, s =>
    if inputAllowed s ∧ s.gameState.type = some .different ∧ s.differentFeedback = none then
      handleDifferentClick i s
    else s
  | .seqClick item r, s =>
    if inputAllowed s ∧ s.gameState.type = some .sequence ∧ item ∈ s.sequenceItems then
      handleSequenceClick item r s
    else s
  | .simonClick b, s =>
    if inputAllowed s ∧ s.gameState.type = some .simon ∧ b < 4 then
      handleSimonClick b s
    else s
  | .fireAt i r, s =>
    match s.pendings.get? i with
    | some p => runPending p r { s with pendings := s.pendings.eraseIdx i }
    | none => s

/-- Run a whole event trace from a state. -/
def runTrace (es : List Event) (s : AppState) : AppState :=
  es.foldl (fun a e => step e a) s

/-- Events internal to a session: user inputs on the game screen and timer
firings — everything except the session boundaries `startGame`,
`goToMenu` and `restartGame`. -/
def isSessionEvent : Event → Prop
  | .startGameEv _ _ => False
  | .goToMenuEv => False
  | .restartEv _ => False
  | _ => True

/-! ## Concrete runs used by counterexamples and witnesses -/

/-- Randomness with empty sources: every Simon color is the default `0`;
shuffles with an empty index list are irrelevant to the games below. -/
def rngZero : Rng := ⟨[], [], []⟩

/-- The identity shuffle outcome (a stable sort whose random comparator
stays negative leaves the array unchanged). -/
def rngId : Rng := ⟨List.range 40, List.range 4, []⟩

/-- A realizable interleaving that violates `1 ≤ level ≤ maxLevel`:
play Simon up to completing level 3's sequence (colors all `0`), then —
inside the 1000 ms window before the completion timeout fires — return to
the menu and start the find-pair game.  `goToMenu`/`startGame` do not
cancel the Simon completion timeout, so it fires into the new session,
shows the level-complete modal and then runs `initSimonGameAtLevel(4)`,
leaving `{type: find-pair, level: 4, maxLevel: 10}`.  Matching the three
pairs of find-pair level 1 then advances with the corrupted capture
`(find-pair, 4, 10)` and `initFindPairGameAtLevel(5)` ends at
`{level: 5, maxLevel: 3}` on the live game screen. -/
def c2Trace : List Event :=
  [.startGameEv .simon rngZero, .fireAt 0 rngZero, .simonClick 0,
   .fireAt 0 rngZero, .fireAt 0 rngZero,
   .fireAt 0 rngZero, .simonClick 0, .simonClick 0,
   .fireAt 0 rngZero, .fireAt 0 rngZero,
   .fireAt 0 rngZero, .simonClick 0, .simonClick 0, .simonClick 0,
   .goToMenuEv, .startGameEv .findPair rngZero,
   .fireAt 0 rngZero, .fireAt 0 rngZero,
   .pairSelect true "🐶", .pairSelect false "Cachorro",
   .pairSelect true "🐱", .pairSelect false "Gato",
   .pairSelect true "🐰", .pairSelect false "Coelho",
   .fireAt 1 rngZero]

def c2Final : AppState := runTrace c2Trace initialState

/-- Pattern game, fresh session at level 1. -/
def patternStart : AppState := step (.startGameEv .pattern rngZero) initialState

/-- Level 1 after the wrong option `🟡` is selected. -/
def patternAfterWrong : AppState := step (.patternAnswer "🟡") patternStart

/-- Level 1 after the right option `🔵` is selected. -/
def patternAfterRight : AppState := step (.patternAnswer "🔵") patternStart

/-- ... and after the 1000 ms post-answer timeout fires. -/
def patternAfterTick : AppState := step (.fireAt 0 rngZero) patternAfterRight

/-- ... and after the 1500 ms auto-advance timeout fires. -/
def patternAfterAdvance : AppState := step (.fireAt 0 rngZero) patternAfterTick

/-- Sequence game, fresh session at level 1, shuffle keeping the original
order, so `sequenceItems = ["🌱", "🌿", "🪴", "🌳"]` with zero items
removed. -/
def seqStart : AppState := step (.startGameEv .sequence rngId) initialState

/-- The click on `"🌱"` (= `correctOrder[0]`, the next expected item when
zero items have been removed). -/
def seqAfterClick : AppState := step (.seqClick "🌱" rngId) seqStart

/-- The set of images of the first `n` pairs of `allPairs`. -/
def levelImages (n : Nat) : Finset String :=
  ((allPairs.take n).map Prod.fst).toFinset

/-- Find-pair level 1 with two of the three pairs already matched and the
image `🐰` selected. -/
def findPairTwoDone : AppState :=
  { step (.startGameEv .findPair rngZero) initialState with
    pairedItems := {"🐶", "🐱"}
    selectedPair := ⟨some "🐰", none⟩ }

/-- Memory game level 1 (identity shuffle: cards `🐶 🐱 🐶 🐱` with ids
`0..3`) after the first card is clicked. -/
def memoryOneFlipped : AppState :=
  step (.memCardClick 0) (step (.startGameEv .memory rngId) initialState)

/-- Simon level 2 (sequence `[0, 0]`) with playback finished and no
button pressed yet. -/
def simonMidLevel : AppState :=
  runTrace [.startGameEv .simon rngZero, .fireAt 0 rngZero, .simonClick 0,
            .fireAt 0 rngZero, .fireAt 0 rngZero, .fireAt 0 rngZero]
    initialState

/-! ## Preservation lemmas -/

/-- `autoAdvanceLevel` only touches the modals and the pending list. -/
theorem autoAdvanceLevel_gameState (c : Capture) (s : AppState) :
    (autoAdvanceLevel c s).gameState = s.gameState := by
  unfold autoAdvanceLevel; split <;> rfl

/-- Every per-game `init(level)` updates the session state to the given
level and its game's declared total, preserving score and attempts. -/
theorem initAtLevel_gameState (t : GameType) (l : Nat) (r : Rng) (s : AppState) :
    (initAtLevel t l r s).gameState
      = { s.gameState with level := l, maxLevel := MAX_LEVELS t } := by
  cases t
  case sequence =>
    simp only [initAtLevel, initSequenceGameAtLevel]
    split <;> rfl
  all_goals rfl

theorem initAtLevel_score (t : GameType) (l : Nat) (r : Rng) (s : AppState) :
    (initAtLevel t l r s).gameState.score = s.gameState.score := by
  rw [initAtLevel_gameState]

theorem initAtLevel_attempts (t : GameType) (l : Nat) (r : Rng) (s : AppState) :
    (initAtLevel t l r s).gameState.attempts = s.gameState.attempts := by
  rw [initAtLevel_gameState]

/-- No per-game `init` touches the level-complete modal. -/
theorem initAtLevel_modal (t : GameType) (l : Nat) (r : Rng) (s : AppState) :
    (initAtLevel t l r s).showLevelCompleteModal = s.showLevelCompleteModal := by
  cases t
  case sequence =>
    simp only [initAtLevel, initSequenceGameAtLevel]
    split <;> rfl
  all_goals rfl

/-! ## C1 — `startGame` atomicity -/

/-- C1, counterexample.  The claim says the single atomic update of
`startGame(t)` establishes `maxLevel = t`'s declared total; the update at
source line 556 in fact writes `maxLevel: 1` (for the memory game the
declared total is 5), the declared total being installed only afterwards
by the variant's `init(1)`. -/
theorem c1_maxLevel_not_in_atomic_update :
    (startGameSnapshot GameType.memory).maxLevel = 1 ∧
    MAX_LEVELS GameType.memory = 5 ∧
    (startGameSnapshot GameType.memory).maxLevel ≠ MAX_LEVELS GameType.memory := by
  decide

/-- C1, amended.  The atomic update of `startGame(t)` establishes
`{type: t, level: 1, maxLevel: 1, score: 0, attempts: 0}` (so `gameType`
is set before any per-game initialization and before the screen
transition); the variant's `init(1)` then raises `maxLevel` to the
declared total, so a completed `startGame(t)` leaves the session state
`{t, 1, MAX_LEVELS t, 0, 0}` with the game screen shown and `gameType`
never unset. -/
theorem c1_startGame_establishes_session (t : GameType) (r : Rng) (s : AppState) :
    (startGameSnapshot t).type = some t ∧
    (startGameSnapshot t).level = 1 ∧
    (startGameSnapshot t).score = 0 ∧
    (startGameSnapshot t).attempts = 0 ∧
    (startGameCore t r s).gameState
      = { type := some t, level := 1, maxLevel := MAX_LEVELS t,
          score := 0, attempts := 0 } ∧
    (startGameCore t r s).currentScreen = Screen.game := by
  refine ⟨rfl, rfl, rfl, rfl, ?_, ?_⟩
  · show (initAtLevel t 1 r _).gameState = _
    rw [initAtLevel_gameState]
    rfl
  · show Screen.game = Screen.game
    rfl

/-! ## C5 — content-lookup bounds checking -/

/-- C5, counterexample.  `getSequenceForLevel` never validates its
challenge-index argument: called with the valid level 2 and the
out-of-range index 99 it logs nothing (flag `false`) and returns level 2's
entry, not the first valid entry. -/
theorem c5_sequence_lookup_ignores_index :
    getSequenceForLevel 2 99
      = (false, ⟨["🥚", "🐣", "🐥", "🐔"], ["🥚", "🐣", "🐥", "🐔"]⟩) ∧
    (⟨["🥚", "🐣", "🐥", "🐔"], ["🥚", "🐣", "🐥", "🐔"]⟩ : SeqChallenge)
      ≠ allSequences.getD 0 ⟨[], []⟩ := by
  decide

/-- The first element of a nonempty prefix is the first element of the
list. -/
theorem getD_zero_take (l : List α) (k : Nat) (d : α) (hk : 1 ≤ k) :
    (l.take k).getD 0 d = l.getD 0 d := by
  cases l with
  | nil => simp
  | cons a l =>
    cases k with
    | zero => omega
    | succ k => rfl

/-- C5, amended.  For all four content-lookup helpers, an out-of-range
LEVEL logs the anomaly and returns the first valid entry (for
`getFindPairsForLevel`, level 1's pair list).  For `getPatternsForLevel`
and `getDifferentForLevel` an out-of-range challenge INDEX at a valid
level also logs and falls back to the first challenge.
`getSequenceForLevel`, however, ignores its index argument entirely
(`getSequenceForLevel level index = getSequenceForLevel level 0` for every
index): with a valid level it logs nothing, whatever the index.  No lookup
ever yields an undefined value. -/
theorem c5_lookup_fallbacks :
    (∀ level : Int, level < 1 ∨ 3 < level →
      getFindPairsForLevel level = (true, allPairs.take 3)) ∧
    (∀ level index : Int, level < 1 ∨ 5 < level →
      getPatternsForLevel level index = (true, allPatterns.getD 0 ⟨[], "", []⟩)) ∧
    (∀ level index : Int, ¬(level < 1 ∨ 5 < level) →
      (index < 0 ∨ ((allPatterns.take level.toNat).length : Int) ≤ index) →
      getPatternsForLevel level index = (true, allPatterns.getD 0 ⟨[], "", []⟩)) ∧
    (∀ level index : Int, level < 1 ∨ 5 < level →
      getDifferentForLevel level index = (true, allDifferentLevels.getD 0 ⟨[], 0⟩)) ∧
    (∀ level index : Int, ¬(level < 1 ∨ 5 < level) →
      (index < 0 ∨ ((allDifferentLevels.take level.toNat).length : Int) ≤ index) →
      getDifferentForLevel level index = (true, allDifferentLevels.getD 0 ⟨[], 0⟩)) ∧
    (∀ level index : Int, level < 1 ∨ 4 < level →
      getSequenceForLevel level index = (true, allSequences.getD 0 ⟨[], []⟩)) ∧
    (∀ level index : Int, getSequenceForLevel level index = getSequenceForLevel level 0) ∧
    (∀ level index : Int, ¬(level < 1 ∨ 4 < level) →
      (getSequenceForLevel level index).1 = false) := by
  refine ⟨?_, ?_, ?_, ?_, ?_, ?_, ?_, ?_⟩
  · intro level h
    simp only [getFindPairsForLevel, if_pos h]
  · intro level index h
    simp only [getPatternsForLevel, if_pos h]
  · intro level index h hidx
    simp only [getPatternsForLevel, if_neg h, if_pos hidx]
    rw [getD_zero_take]
    omega
  · intro level index h
    simp only [getDifferentForLevel, if_pos h]
  · intro level index h hidx
    simp only [getDifferentForLevel, if_neg h, if_pos hidx]
    rw [getD_zero_take]
    omega
  · intro level index h
    simp only [getSequenceForLevel, if_pos h]
  · intro level index
    rfl
  · intro level index h
    simp only [getSequenceForLevel, if_neg h]
    rcases hq : allSequences.get? (level - 1).toNat with _ | q
    · rw [List.get?_eq_none] at hq
      have : allSequences.length = 4 := rfl
      omega
    · simp

/-! ## C7 — pattern game, level 1 scenario -/

/-- C7, counterexample.  At pattern level 1 the session's `maxLevel` is 5,
not 1: after the correct answer `🔵` (score 10) the 1000 ms timeout runs
`autoAdvanceLevel`, which takes the `level < maxLevel` branch — the
transient level-complete acknowledgment is shown and NO session-complete
acknowledgment appears, contradicting the claimed advance to
session-complete. -/
theorem c7_level1_not_session_complete :
    patternAfterRight.gameState.score = 10 ∧
    patternAfterRight.gameState.level = 1 ∧
    patternAfterRight.gameState.maxLevel = 5 ∧
    patternAfterTick.showWinModal = false ∧
    patternAfterTick.showLevelCompleteModal = true := by
  decide

/-- C7, amended.  At pattern level 1 (one challenge): the wrong option
`🟡` leaves the score unchanged and shows the failure indicator; the
right option `🔵` for `['🔴','🔵','🔴','🔵','🔴','?']` adds exactly 10 and
— since level 1 is below the declared `maxLevel = 5` — completes the
LEVEL: the level-complete acknowledgment is shown and, once the advance
timer fires, the session continues at level 2. -/
theorem c7_level1_scenario :
    patternAfterWrong.gameState.score = 0 ∧
    patternAfterWrong.patternFeedback = some false ∧
    patternAfterRight.gameState.score = 10 ∧
    patternAfterRight.patternFeedback = some true ∧
    patternAfterTick.showLevelCompleteModal = true ∧
    patternAfterTick.showWinModal = false ∧
    patternAfterAdvance.showLevelCompleteModal = false ∧
    patternAfterAdvance.gameState.level = 2 ∧
    patternAfterAdvance.gameState.maxLevel = 5 := by
  decide

/-! ## C8 — sequence game's next-expected-item derivation -/

/-- C8: the code contradicts the intended rule.  With zero items removed
(`sequenceItems` still the full shuffled level-1 list), the next expected
item should be `correctOrder[0] = "🌱"`; the code instead computes
`correctIndex` as the number of REMAINING items in `correctOrder`
(source line 448), i.e. 4, and compares the click against
`correctOrder[4] = undefined`, so the click on `"🌱"` — and on every other
item — is rejected: no score, nothing removed, the level can never be
completed. -/
theorem c8_first_click_always_rejected :
    seqStart.sequenceItems = ["🌱", "🌿", "🪴", "🌳"] ∧
    (allSequences.getD 0 ⟨[], []⟩).correctOrder.getD 0 "" = "🌱" ∧
    seqAfterClick.gameState.score = 0 ∧
    seqAfterClick.sequenceItems = ["🌱", "🌿", "🪴", "🌳"] ∧
    (step (.seqClick "🌿" rngId) seqStart).gameState.score = 0 ∧
    (step (.seqClick "🪴" rngId) seqStart).gameState.score = 0 ∧
    (step (.seqClick "🌳" rngId) seqStart).gameState.score = 0 := by
  decide

/-! ## C2 — the `1 ≤ level ≤ maxLevel` invariant -/

/-- C2: the invariant is violated by a realizable execution.  `goToMenu`
clears only `showSequenceTimeoutRef` and `startGame` clears no timer at
all, so the 1000 ms Simon completion timeout of the previous session fires
into a freshly started find-pair session (`c2Trace` lists the exact event
interleaving).  The stale `autoAdvanceLevel` capture re-runs
`initSimonGameAtLevel(4)` inside the find-pair session, and completing
find-pair level 1 then advances with the corrupted session state to
`initFindPairGameAtLevel(5)`, leaving the live game screen at
`level = 5 > 3 = maxLevel` — with no `goToMenu` or `restart` after the
find-pair `startGame`. -/
theorem c2_level_invariant_violated :
    c2Final.currentScreen = Screen.game ∧
    c2Final.gameState.type = some GameType.findPair ∧
    c2Final.gameState.level = 5 ∧
    c2Final.gameState.maxLevel = 3 ∧
    ¬(c2Final.gameState.level ≤ c2Final.gameState.maxLevel) := by
  decide

/-! ## C3 — the level-progression coordinator -/

/-- C3: when a per-game module signals completion by invoking
`autoAdvanceLevel` (with the current session snapshot): if
`level < maxLevel`, the transient level-complete acknowledgment appears,
the advance is scheduled with the fixed 1500 ms delay, and its firing
clears the acknowledgment, increments `level` by exactly 1 and runs the
active variant's `init` at the new level; if `level = maxLevel`, the
session-complete acknowledgment appears and nothing else changes — in
particular no advance timer is scheduled. -/
theorem c3_level_progression (s : AppState) (t : GameType) (r : Rng)
    (ht : s.gameState.type = some t) :
    (s.gameState.level < s.gameState.maxLevel →
      (autoAdvanceLevel (captureOf s) s).showLevelCompleteModal = true ∧
      (autoAdvanceLevel (captureOf s) s).gameState = s.gameState ∧
      (autoAdvanceLevel (captureOf s) s).pendings
        = s.pendings ++ [Pending.advance (captureOf s) ADVANCE_DELAY_MS] ∧
      ADVANCE_DELAY_MS = 1500 ∧
      runPending (Pending.advance (captureOf s) ADVANCE_DELAY_MS) r
          (autoAdvanceLevel (captureOf s) s)
        = initAtLevel t (s.gameState.level + 1) r
            { autoAdvanceLevel (captureOf s) s with
              showLevelCompleteModal := false
              gameState := { s.gameState with level := s.gameState.level + 1 } } ∧
      (runPending (Pending.advance (captureOf s) ADVANCE_DELAY_MS) r
          (autoAdvanceLevel (captureOf s) s)).showLevelCompleteModal = false ∧
      (runPending (Pending.advance (captureOf s) ADVANCE_DELAY_MS) r
          (autoAdvanceLevel (captureOf s) s)).gameState.level
        = s.gameState.level + 1 ∧
      (runPending (Pending.advance (captureOf s) ADVANCE_DELAY_MS) r
          (autoAdvanceLevel (captureOf s) s)).gameState.maxLevel
        = MAX_LEVELS t) ∧
    (s.gameState.maxLevel ≤ s.gameState.level →
      autoAdvanceLevel (captureOf s) s = { s with showWinModal := true }) := by
  constructor
  · intro h
    have hlt : (captureOf s).level < (captureOf s).maxLevel := h
    have hadv : autoAdvanceLevel (captureOf s) s
        = { s with
            showLevelCompleteModal := true
            pendings := s.pendings ++ [Pending.advance (captureOf s) ADVANCE_DELAY_MS] } := by
      unfold autoAdvanceLevel
      rw [if_pos hlt]
    have hct : (captureOf s).type = some t := ht
    have hrun : runPending (Pending.advance (captureOf s) ADVANCE_DELAY_MS) r
        (autoAdvanceLevel (captureOf s) s)
      = initAtLevel t (s.gameState.level + 1) r
          { autoAdvanceLevel (captureOf s) s with
            showLevelCompleteModal := false
            gameState := { s.gameState with level := s.gameState.level + 1 } } := by
      rw [hadv]
      simp only [runPending, captureOf, ht]
    refine ⟨?_, ?_, ?_, rfl, hrun, ?_, ?_, ?_⟩
    · rw [hadv]
    · rw [hadv]
    · rw [hadv]
    · rw [hrun, initAtLevel_modal]
    · rw [hrun, initAtLevel_gameState]
    · rw [hrun, initAtLevel_gameState]
  · intro h
    have h' : ¬((captureOf s).level < (captureOf s).maxLevel) := not_lt.mpr h
    unfold autoAdvanceLevel
    rw [if_neg h']

/-- C3 witness: Simon at level 2 of 10 with playback finished — the
acknowledgment is shown and firing the 1500 ms advance reaches level 3. -/
theorem c3_level_progression_witness :
    simonMidLevel.gameState.level < simonMidLevel.gameState.maxLevel ∧
    (autoAdvanceLevel (captureOf simonMidLevel) simonMidLevel).showLevelCompleteModal
      = true ∧
    (runPending (Pending.advance (captureOf simonMidLevel) ADVANCE_DELAY_MS) rngZero
        (autoAdvanceLevel (captureOf simonMidLevel) simonMidLevel)).gameState.level
      = simonMidLevel.gameState.level + 1 :=
  ⟨by decide,
   ((c3_level_progression simonMidLevel .simon rngZero (by decide)).1 (by decide)).1,
   ((c3_level_progression simonMidLevel .simon rngZero (by decide)).1
      (by decide)).2.2.2.2.2.2.1⟩

/-! ## C6 — the pair-matching win condition -/

/-- Whatever the captured snapshot, `autoAdvanceLevel` raises one of the
two acknowledgments. -/
theorem autoAdvanceLevel_ack (c : Capture) (s : AppState) :
    (autoAdvanceLevel c s).showLevelCompleteModal = true ∨
    (autoAdvanceLevel c s).showWinModal = true := by
  unfold autoAdvanceLevel
  split
  · left; rfl
  · right; rfl

/-- Counting argument behind the win check: for `P` a set of already
matched images inside the `n`-image set `I` and `x ∈ I` a newly matched
image, `P` had `n - 1` elements exactly when inserting `x` completes `I`. -/
theorem finset_card_insert_complete {P I : Finset String} {x : String} {n : Nat}
    (hsub : P ⊆ I) (hx : x ∈ I) (hnx : x ∉ P) (hcard : I.card = n) (hn : 1 ≤ n) :
    P.card = n - 1 ↔ insert x P = I := by
  constructor
  · intro hp
    apply Finset.eq_of_subset_of_card_le (Finset.insert_subset hx hsub)
    rw [Finset.card_insert_of_not_mem hnx, hp, hcard]
    omega
  · intro he
    have hc := congrArg Finset.card he
    rw [Finset.card_insert_of_not_mem hnx, hcard] at hc
    omega

/-- C6: in `handleFindPairSelect`, the `pairedItems.size === pairsCount - 1`
check — evaluated against the set as it was BEFORE the newly matched pair
is inserted — triggers `autoAdvanceLevel` exactly when the insertion makes
all `pairsCount` pairs matched.  Hypotheses: the level is one of the
declared ones (`findPairsCount? s = some n`), an image is already
selected, the word click completes a correct pair `p` of the level that is
not yet matched, and the matched set so far only holds images of the
level. -/
theorem c6_pair_win_check (s : AppState) (v img : String) (p : String × String) (n : Nat)
    (hn : findPairsCount? s = some n)
    (himg : s.selectedPair.image = some img)
    (hfind : (findPairLevelPairs s).find? (fun q => q.1 == img && q.2 == v) = some p)
    (hnew : p.1 ∉ s.pairedItems)
    (hsub : s.pairedItems ⊆ levelImages n)
    (hmod : s.showLevelCompleteModal = false)
    (hwin : s.showWinModal = false) :
    ((handleFindPairSelect false v s).showLevelCompleteModal = true ∨
      (handleFindPairSelect false v s).showWinModal = true)
      ↔ insert p.1 s.pairedItems = levelImages n := by
  have hnmem : n ∈ ([3, 5, 7] : List Nat) := List.get?_mem hn
  have hn357 : n = 3 ∨ n = 5 ∨ n = 7 := by simpa using hnmem
  have hn1 : 1 ≤ n := by rcases hn357 with rfl | rfl | rfl <;> decide
  have hcard : (levelImages n).card = n := by
    rcases hn357 with rfl | rfl | rfl <;> decide
  have hpmem : p ∈ allPairs.take n := by
    have := List.mem_of_find?_eq_some hfind
    rwa [findPairLevelPairs, hn] at this
  have hximg : p.1 ∈ levelImages n := by
    unfold levelImages
    exact List.mem_toFinset.mpr (List.mem_map_of_mem Prod.fst hpmem)
  have hiff := finset_card_insert_complete hsub hximg hnew hcard hn1
  by_cases hc : s.pairedItems.card = n - 1
  · have hkey : handleFindPairSelect false v s
        = { autoAdvanceLevel (captureOf s)
              { s with
                selectedPair := ⟨some img, some v⟩
                pairedItems := insert p.1 s.pairedItems
                gameState := { s.gameState with score := s.gameState.score + 10 } } with
            selectedPair := (⟨none, none⟩ : SelPair) } := by
      simp [handleFindPairSelect, himg, hfind, hn, hnew, hc]
    rw [hkey]
    exact iff_of_true (autoAdvanceLevel_ack _ _) (hiff.mp hc)
  · have hkey : handleFindPairSelect false v s
        = { s with
            selectedPair := (⟨none, none⟩ : SelPair)
            pairedItems := insert p.1 s.pairedItems
            gameState := { s.gameState with score := s.gameState.score + 10 } } := by
      simp [handleFindPairSelect, himg, hfind, hn, hnew, hc]
    rw [hkey]
    refine iff_of_false ?_ (fun he => hc (hiff.mpr he))
    intro hor
    rcases hor with h1 | h1
    · exact absurd h1 (by simp [hmod])
    · exact absurd h1 (by simp [hwin])

/-- C6 witness: level 1 (3 pairs) with `🐶` and `🐱` already matched;
completing the `🐰`/`Coelho` pair triggers level completion, and indeed
the inserted image completes the full image set. -/
theorem c6_pair_win_check_witness :
    (handleFindPairSelect false "Coelho" findPairTwoDone).showLevelCompleteModal = true ∨
    (handleFindPairSelect false "Coelho" findPairTwoDone).showWinModal = true :=
  (c6_pair_win_check findPairTwoDone "Coelho" "🐰" ("🐰", "Coelho") 3
    (by decide) (by decide) (by decide) (by decide) (by decide) (by decide)
    (by decide)).mpr (by decide)

/-! ## C4 — score monotonicity -/

/-- The memory click itself never touches the score. -/
theorem score_le_handleCardClick (i : Nat) (s : AppState) :
    s.gameState.score ≤ (handleCardClick i s).gameState.score := by
  simp only [handleCardClick]
  split
  · exact le_rfl
  · split
    · exact le_rfl
    · split <;> exact le_rfl

/-- A find-pair selection can only add 10 to the score. -/
theorem score_le_handleFindPairSelect (isImage : Bool) (v : String) (s : AppState) :
    s.gameState.score ≤ (handleFindPairSelect isImage v s).gameState.score := by
  simp only [handleFindPairSelect]
  split
  · split
    · split
      · split
        · rw [autoAdvanceLevel_gameState]
          exact Nat.le_add_right _ _
        · exact Nat.le_add_right _ _
      · exact le_rfl
    · exact le_rfl
  · exact le_rfl

/-- A pattern answer can only add 10 to the score. -/
theorem score_le_handlePatternAnswer (a : String) (s : AppState) :
    s.gameState.score ≤ (handlePatternAnswer a s).gameState.score := by
  simp only [handlePatternAnswer]
  split
  · exact le_rfl
  · split
    · exact Nat.le_add_right _ _
    · exact le_rfl

/-- A find-different click can only add 10 to the score. -/
theorem score_le_handleDifferentClick (i : Nat) (s : AppState) :
    s.gameState.score ≤ (handleDifferentClick i s).gameState.score := by
  simp only [handleDifferentClick]
  split
  · exact le_rfl
  · split
    · exact Nat.le_add_right _ _
    · exact le_rfl

/-- A sequence click can only add 10 to the score. -/
theorem score_le_handleSequenceClick (item : String) (r : Rng) (s : AppState) :
    s.gameState.score ≤ (handleSequenceClick item r s).gameState.score := by
  simp only [handleSequenceClick]
  split
  · exact le_rfl
  · split
    · split
      · split
        · split
          · exact Nat.le_add_right _ _
          · exact Nat.le_add_right _ _
        · rw [autoAdvanceLevel_gameState]
          exact Nat.le_add_right _ _
      · exact Nat.le_add_right _ _
    · exact le_rfl

/-- A Simon press can only add `10 * level` to the score. -/
theorem score_le_handleSimonClick (b : Nat) (s : AppState) :
    s.gameState.score ≤ (handleSimonClick b s).gameState.score := by
  simp only [handleSimonClick]
  split
  · exact le_rfl
  · split
    · exact le_rfl
    · split
      · exact Nat.le_add_right _ _
      · exact le_rfl

/-- No timer callback ever lowers the score. -/
theorem score_le_runPending (p : Pending) (r : Rng) (s : AppState) :
    s.gameState.score ≤ (runPending p r s).gameState.score := by
  cases p with
  | memResolve cards a b cap d =>
    simp only [runPending]
    split
    · split
      · split
        · rw [autoAdvanceLevel_gameState]
          exact Nat.le_add_right _ _
        · exact Nat.le_add_right _ _
      · exact le_rfl
    · exact le_rfl
  | patternTick len idx cap d =>
    simp only [runPending]
    split
    · exact le_rfl
    · rw [autoAdvanceLevel_gameState]
  | differentTick len idx cap d =>
    simp only [runPending]
    split
    · exact le_rfl
    · rw [autoAdvanceLevel_gameState]
  | advance cap d =>
    simp only [runPending]
    split
    · rw [initAtLevel_score]
    · exact le_rfl
  | simonAdvance cap d =>
    simp only [runPending]
    rw [autoAdvanceLevel_gameState]
  | simonShowDone =>
    exact le_rfl

/-- C4: within a session, no input event and no timer event ever
decreases `score` (every such `step` is monotone on it), and every
`startGame` call from the menu resets `score` to exactly 0. -/
theorem c4_score_monotone_and_reset :
    (∀ (s : AppState) (e : Event), isSessionEvent e →
      s.gameState.score ≤ (step e s).gameState.score) ∧
    (∀ (s : AppState) (t : GameType) (r : Rng), s.currentScreen = Screen.menu →
      (step (Event.startGameEv t r) s).gameState.score = 0) := by
  constructor
  · intro s e he
    cases e with
    | startGameEv t r => exact he.elim
    | goToMenuEv => exact he.elim
    | restartEv r => exact he.elim
    | winDismiss =>
      simp only [step]
      split <;> exact le_rfl
    | memCardClick i =>
      simp only [step]
      split
      · exact score_le_handleCardClick i s
      · exact le_rfl
    | pairSelect isImage v =>
      simp only [step]
      split
      · exact score_le_handleFindPairSelect isImage v s
      · exact le_rfl
    | patternAnswer a =>
      simp only [step]
      split
      · exact score_le_handlePatternAnswer a s
      · exact le_rfl
    | differentClick i =>
      simp only [step]
      split
      · exact score_le_handleDifferentClick i s
      · exact le_rfl
    | seqClick item r =>
      simp only [step]
      split
      · exact score_le_handleSequenceClick item r s
      · exact le_rfl
    | simonClick b =>
      simp only [step]
      split
      · exact score_le_handleSimonClick b s
      · exact le_rfl
    | fireAt i r =>
      simp only [step]
      split
      · exact score_le_runPending _ r { s with pendings := s.pendings.eraseIdx i }
      · exact le_rfl
  · intro s t r hs
    simp only [step, if_pos hs]
    show (initAtLevel t 1 r _).gameState.score = 0
    rw [initAtLevel_score]
    rfl

/-- C4 witness: a correct pattern answer at a fresh level 1 keeps the
score monotone, and starting the pattern game from the menu gives
score 0. -/
theorem c4_witness :
    isSessionEvent (Event.patternAnswer "🔵") ∧
    patternStart.gameState.score
      ≤ (step (Event.patternAnswer "🔵") patternStart).gameState.score ∧
    initialState.currentScreen = Screen.menu ∧
    (step (Event.startGameEv GameType.pattern rngZero) initialState).gameState.score = 0 :=
  ⟨trivial,
   c4_score_monotone_and_reset.1 patternStart (Event.patternAnswer "🔵") trivial,
   rfl,
   c4_score_monotone_and_reset.2 initialState GameType.pattern rngZero rfl⟩

/-! ## C10 — the attempts counter -/

/-- The find-pair handler never touches `attempts`. -/
theorem attempts_handleFindPairSelect (isImage : Bool) (v : String) (s : AppState) :
    (handleFindPairSelect isImage v s).gameState.attempts = s.gameState.attempts := by
  simp only [handleFindPairSelect]
  split
  · split
    · split
      · split
        · rw [autoAdvanceLevel_gameState]
        · rfl
      · rfl
    · rfl
  · rfl

/-- The pattern handler never touches `attempts`. -/
theorem attempts_handlePatternAnswer (a : String) (s : AppState) :
    (handlePatternAnswer a s).gameState.attempts = s.gameState.attempts := by
  simp only [handlePatternAnswer]
  split
  · rfl
  · split <;> rfl

/-- The find-different handler never touches `attempts`. -/
theorem attempts_handleDifferentClick (i : Nat) (s : AppState) :
    (handleDifferentClick i s).gameState.attempts = s.gameState.attempts := by
  simp only [handleDifferentClick]
  split
  · rfl
  · split <;> rfl

/-- The sequence handler never touches `attempts`. -/
theorem attempts_handleSequenceClick (item : String) (r : Rng) (s : AppState) :
    (handleSequenceClick item r s).gameState.attempts = s.gameState.attempts := by
  simp only [handleSequenceClick]
  split
  · rfl
  · split
    · split
      · split
        · split <;> rfl
        · rw [autoAdvanceLevel_gameState]
      · rfl
    · rfl

/-- The Simon handler never touches `attempts`. -/
theorem attempts_handleSimonClick (b : Nat) (s : AppState) :
    (handleSimonClick b s).gameState.attempts = s.gameState.attempts := by
  simp only [handleSimonClick]
  split
  · rfl
  · split
    · rfl
    · split <;> rfl

/-- No timer callback ever touches `attempts`. -/
theorem attempts_runPending (p : Pending) (r : Rng) (s : AppState) :
    (runPending p r s).gameState.attempts = s.gameState.attempts := by
  cases p with
  | memResolve cards a b cap d =>
    simp only [runPending]
    split
    · split
      · split
        · rw [autoAdvanceLevel_gameState]
        · rfl
      · rfl
    · rfl
  | patternTick len idx cap d =>
    simp only [runPending]
    split
    · rfl
    · rw [autoAdvanceLevel_gameState]
  | differentTick len idx cap d =>
    simp only [runPending]
    split
    · rfl
    · rw [autoAdvanceLevel_gameState]
  | advance cap d =>
    simp only [runPending]
    split
    · rw [initAtLevel_attempts]
    · rfl
  | simonAdvance cap d =>
    simp only [runPending]
    rw [autoAdvanceLevel_gameState]
  | simonShowDone => rfl

/-- C10: `attempts` changes only through the memory game.  Flipping the
second card of a pair adds exactly 1 (whether or not the cards match —
the match is only resolved by the later timeout, which never touches
`attempts`); a first flip changes nothing; the handlers of the five other
variants, every level-change `init` and every timer callback leave it
unchanged; and `startGame` resets it to 0. -/
theorem c10_attempts_frame :
    (∀ (s : AppState) (i : Nat) (card : MemCard),
      s.memoryCards.get? i = some card → card.matched = false →
      card.flipped = false → s.selectedCards.length = 1 →
      (handleCardClick i s).gameState.attempts = s.gameState.attempts + 1) ∧
    (∀ (s : AppState) (i : Nat), s.selectedCards = [] →
      (handleCardClick i s).gameState.attempts = s.gameState.attempts) ∧
    (∀ (s : AppState) (isImage : Bool) (v : String),
      (handleFindPairSelect isImage v s).gameState.attempts = s.gameState.attempts) ∧
    (∀ (s : AppState) (a : String),
      (handlePatternAnswer a s).gameState.attempts = s.gameState.attempts) ∧
    (∀ (s : AppState) (i : Nat),
      (handleDifferentClick i s).gameState.attempts = s.gameState.attempts) ∧
    (∀ (s : AppState) (item : String) (r : Rng),
      (handleSequenceClick item r s).gameState.attempts = s.gameState.attempts) ∧
    (∀ (s : AppState) (b : Nat),
      (handleSimonClick b s).gameState.attempts = s.gameState.attempts) ∧
    (∀ (t : GameType) (l : Nat) (r : Rng) (s : AppState),
      (initAtLevel t l r s).gameState.attempts = s.gameState.attempts) ∧
    (∀ (p : Pending) (r : Rng) (s : AppState),
      (runPending p r s).gameState.attempts = s.gameState.attempts) ∧
    (∀ (t : GameType) (r : Rng) (s : AppState),
      (startGameCore t r s).gameState.attempts = 0) := by
  refine ⟨?_, ?_, fun s isImage v => attempts_handleFindPairSelect isImage v s,
    fun s a => attempts_handlePatternAnswer a s,
    fun s i => attempts_handleDifferentClick i s,
    fun s item r => attempts_handleSequenceClick item r s,
    fun s b => attempts_handleSimonClick b s,
    initAtLevel_attempts, attempts_runPending, ?_⟩
  · intro s i card hget hm hf hsel
    have hguard : ¬(s.selectedCards.length = 2 ∨ card.matched = true ∨ card.flipped = true) := by
      simp [hsel, hm, hf]
    obtain ⟨x, hx⟩ : ∃ x, s.selectedCards = [x] := by
      cases hxs : s.selectedCards with
      | nil => rw [hxs] at hsel; simp at hsel
      | cons y ys =>
        cases ys with
        | nil => exact ⟨y, rfl⟩
        | cons z zs => rw [hxs] at hsel; simp at hsel
    simp only [handleCardClick, hget]
    rw [if_neg hguard, hx]
    rfl
  · intro s i hsel
    simp only [handleCardClick]
    split
    · rfl
    · split
      · rfl
      · rw [hsel]
        rfl
  · intro t r s
    show (initAtLevel t 1 r _).gameState.attempts = 0
    rw [initAtLevel_attempts]
    rfl

/-- C10 witness: with one `🐶` flipped, clicking the `🐱` card (a
non-matching second card) increments `attempts` from 0 to 1; a fresh
`startGame` yields `attempts = 0`. -/
theorem c10_attempts_frame_witness :
    (handleCardClick 1 memoryOneFlipped).gameState.attempts
      = memoryOneFlipped.gameState.attempts + 1 ∧
    memoryOneFlipped.gameState.attempts = 0 ∧
    (startGameCore GameType.memory rngId initialState).gameState.attempts = 0 :=
  ⟨c10_attempts_frame.1 memoryOneFlipped 1
      ⟨1, "🐱", false, false⟩ (by decide) rfl rfl (by decide),
   by decide,
   c10_attempts_frame.2.2.2.2.2.2.2.2.2 GameType.memory rngId initialState⟩


/-! ## C9 — fixed per-correct-answer score increments -/

/-- C9: a correct answer adds a fixed, level-independent amount to the
score: 10 in the memory, find-pair, pattern, find-different and sequence
games (the conjuncts hold whether or not the answer finishes the puzzle,
so in particular for every correct-intermediate outcome).  In the Simon
game a correct press that does NOT complete the sequence adds nothing
(the fixed intermediate amount is 0, also level-independent); Simon's
only award, `10 * level`, happens on the press that finishes the puzzle,
outside the claim's correct-intermediate scope. -/
theorem c9_fixed_score_increment :
    (∀ (cards : List MemCard) (a b : Nat) (cap : Capture) (d : Nat) (r : Rng)
        (s : AppState) (ca cb : MemCard),
      cards.get? a = some ca → cards.get? b = some cb → ca.emoji = cb.emoji →
      (runPending (Pending.memResolve cards a b cap d) r s).gameState.score
        = s.gameState.score + 10) ∧
    (∀ (s : AppState) (v img : String) (p : String × String),
      s.selectedPair.image = some img →
      (findPairLevelPairs s).find? (fun q => q.1 == img && q.2 == v) = some p →
      p.1 ∉ s.pairedItems →
      (handleFindPairSelect false v s).gameState.score = s.gameState.score + 10) ∧
    (∀ (s : AppState) (a : String) (cp : PatternChallenge),
      (allPatterns.take s.gameState.level).get? s.currentPatternIndex = some cp →
      a = cp.answer →
      (handlePatternAnswer a s).gameState.score = s.gameState.score + 10) ∧
    (∀ (s : AppState) (i : Nat) (cl : DifferentChallenge),
      (allDifferentLevels.take s.gameState.level).get? s.currentDifferentIndex = some cl →
      i = cl.different →
      (handleDifferentClick i s).gameState.score = s.gameState.score + 10) ∧
    (∀ (s : AppState) (item : String) (r : Rng) (cs : SeqChallenge),
      allSequences.get? s.currentSequenceIndex = some cs →
      cs.correctOrder.get?
          ((s.sequenceItems.filter fun x => cs.correctOrder.contains x).length)
        = some item →
      (handleSequenceClick item r s).gameState.score = s.gameState.score + 10) ∧
    (∀ (s : AppState) (b : Nat),
      s.isShowingSequence = false →
      s.simonSequence.get? s.playerSequence.length = some b →
      s.playerSequence.length + 1 ≠ s.simonSequence.length →
      (handleSimonClick b s).gameState.score = s.gameState.score) := by
  refine ⟨?_, ?_, ?_, ?_, ?_, ?_⟩
  · intro cards a b cap d r s ca cb h1 h2 h3
    simp only [runPending, h1, h2]
    rw [if_pos h3]
    split
    · rw [autoAdvanceLevel_gameState]
    · rfl
  · intro s v img p himg hfind hnew
    simp [handleFindPairSelect, himg, hfind, hnew]
    split
    · rw [autoAdvanceLevel_gameState]
    · rfl
  · intro s a cp hcp ha
    subst ha
    simp only [handlePatternAnswer, hcp]
    rw [if_pos (beq_self_eq_true cp.answer)]
  · intro s i cl hcl hi
    subst hi
    simp only [handleDifferentClick, hcl]
    rw [if_pos (beq_self_eq_true cl.different)]
  · intro s item r cs hcs hitem
    simp only [handleSequenceClick, hcs, hitem, if_true]
    split
    · split
      · split <;> rfl
      · rw [autoAdvanceLevel_gameState]
    · rfl
  · intro s b h1 h2 h3
    have hl : (s.playerSequence ++ [b]).length - 1 = s.playerSequence.length := by
      simp
    have hgb : (s.playerSequence ++ [b]).get? s.playerSequence.length = some b := by
      rw [List.get?_eq_getElem?]
      exact List.getElem?_concat_length _ _
    have hlen : (s.playerSequence ++ [b]).length = s.playerSequence.length + 1 := by
      simp
    have h2' : s.simonSequence[s.playerSequence.length]? = some b := by
      rw [← List.get?_eq_getElem?]
      exact h2
    simp only [handleSimonClick, h1, hl, hgb, hlen, h2]
    rw [if_neg (by simp), if_neg (by simp [h2']), if_neg h3]

/-- C9 witness: the correct pattern answer at level 1 adds exactly 10;
a correct non-final Simon press at level 2 leaves the score unchanged. -/
theorem c9_fixed_score_increment_witness :
    (handlePatternAnswer "🔵" patternStart).gameState.score
      = patternStart.gameState.score + 10 ∧
    (handleSimonClick 0 simonMidLevel).gameState.score
      = simonMidLevel.gameState.score :=
  ⟨c9_fixed_score_increment.2.2.1 patternStart "🔵"
      ⟨["🔴", "🔵", "🔴", "🔵", "🔴", "?"], "🔵", ["🔵", "🟡", "🟢"]⟩ (by decide) rfl,
   c9_fixed_score_increment.2.2.2.2.2 simonMidLevel 0 (by decide) (by decide)
     (by decide)⟩

/-- C5 witness: level 0 falls back to the first pair list, and a valid
level with challenge index 99 falls back to the first pattern. -/
theorem c5_lookup_fallbacks_witness :
    getFindPairsForLevel 0 = (true, allPairs.take 3) ∧
    getPatternsForLevel 3 99 = (true, allPatterns.getD 0 ⟨[], "", []⟩) :=
  ⟨c5_lookup_fallbacks.1 0 (by decide),
   c5_lookup_fallbacks.2.2.1 3 99 (by decide) (by decide)⟩
